import Mathlib

/-
  Verification of the gram-meter distribution simulator.

  Shallow embedding of src/backend/distribution/models.py
  (ElectricityReading.save, ElectricityReading._update_status, LossAlert)
  and src/backend/distribution/simulator.py (ElectricitySimulator).

  Numeric values are modelled as rationals; Python's ambient random draws
  are passed explicitly as parameters (the spec itself calls for a
  seedable, explicitly passed random source).  Decimal rounding to 2-3
  places in the synthesizer payload is omitted: no claim below depends on
  the rounded digits.
-/

namespace GramMeter

/-- `ElectricityReading.ReadingStatus` choices (models.py). -/
inductive ReadingStatus
  | normal
  | low_voltage
  | high_voltage
  | loss_detected
  | theft_suspected
  | equipment_fault
  deriving DecidableEq, Repr

/-- `LossAlert.AlertSeverity` choices (models.py). -/
inductive AlertSeverity
  | info
  | warning
  | critical
  | emergency
  deriving DecidableEq, Repr

/-- `LossAlert.AlertType` choices (models.py). -/
inductive AlertType
  | voltage_drop
  | power_loss
  | theft_suspected
  | equipment_fault
  | overload
  | line_fault
  deriving DecidableEq, Repr

/-- `LossAlert.AlertStatus` choices (models.py). -/
inductive AlertStatus
  | active
  | acknowledged
  | investigating
  | resolved
  | false_alarm
  deriving DecidableEq, Repr

/-- The numeric and status fields of `ElectricityReading` (models.py).
Foreign keys, UUIDs and `created_at` are irrelevant to the claims and
omitted.  Field defaults in the Django model are 0 for the numeric
fields, `normal` for `status` and `False` for `is_anomaly`. -/
structure Reading where
  voltage_sent : ℚ
  voltage_received : ℚ
  voltage_loss : ℚ
  voltage_loss_percentage : ℚ
  current_sent : ℚ
  current_received : ℚ
  power_sent_kw : ℚ
  power_received_kw : ℚ
  power_loss_kw : ℚ
  power_loss_percentage : ℚ
  energy_sent_kwh : ℚ
  energy_received_kwh : ℚ
  energy_loss_kwh : ℚ
  power_factor : ℚ
  frequency : ℚ
  line_distance_meters : ℚ
  status : ReadingStatus
  is_anomaly : Bool
  reading_timestamp : ℤ
  deriving DecidableEq, Repr

/-- `ElectricityReading._update_status` (models.py lines 286-308): the
threshold classifier, first match wins. -/
def update_status (r : Reading) : Reading :=
  if r.voltage_received < 207 then
    { r with status := ReadingStatus.low_voltage, is_anomaly := true }
  else if r.voltage_received > 253 then
    { r with status := ReadingStatus.high_voltage, is_anomaly := true }
  else if r.power_loss_percentage > 15 then
    { r with status := ReadingStatus.theft_suspected, is_anomaly := true }
  else if r.power_loss_percentage > 5 then
    { r with status := ReadingStatus.loss_detected, is_anomaly := true }
  else
    { r with status := ReadingStatus.normal, is_anomaly := false }

/-- `ElectricityReading.save` (models.py lines 269-284): recompute the
absolute loss fields unconditionally; recompute each percentage field only
under a positivity check on the corresponding sent value (otherwise the
stored value is left untouched); then classify. -/
def save (r : Reading) : Reading :=
  let r1 := { r with voltage_loss := r.voltage_sent - r.voltage_received }
  let r2 :=
    if r1.voltage_sent > 0 then
      { r1 with voltage_loss_percentage := r1.voltage_loss / r1.voltage_sent * 100 }
    else r1
  let r3 := { r2 with power_loss_kw := r2.power_sent_kw - r2.power_received_kw }
  let r4 :=
    if r3.power_sent_kw > 0 then
      { r3 with power_loss_percentage := r3.power_loss_kw / r3.power_sent_kw * 100 }
    else r3
  let r5 := { r4 with energy_loss_kwh := r4.energy_sent_kwh - r4.energy_received_kwh }
  update_status r5

/-- A reading freshly constructed from the four raw classifier inputs with
every other field at its Django model default (0 / normal / false), as
`ElectricityReading.objects.create` builds it when no derived field is
supplied. -/
def blank_reading (vS vR pS pR : ℚ) : Reading :=
  { voltage_sent := vS
    voltage_received := vR
    voltage_loss := 0
    voltage_loss_percentage := 0
    current_sent := 0
    current_received := 0
    power_sent_kw := pS
    power_received_kw := pR
    power_loss_kw := 0
    power_loss_percentage := 0
    energy_sent_kwh := 0
    energy_received_kwh := 0
    energy_loss_kwh := 0
    power_factor := 95 / 100
    frequency := 50
    line_distance_meters := 100
    status := ReadingStatus.normal
    is_anomaly := false
    reading_timestamp := 0 }

/-- The spec's pure classifier view: persist a reading built from the four
raw inputs and read back its status and anomaly flag. -/
def classify (vS vR pS pR : ℚ) : ReadingStatus × Bool :=
  let r := save (blank_reading vS vR pS pR)
  (r.status, r.is_anomaly)

/-- Modelled from the spec's words (section 4.3): recompute the loss
fields per the section-3 invariants (percentage zero when the sent value
is nonpositive), then apply the five-step precedence chain. -/
def classifySpec (vS vR pS pR : ℚ) : ReadingStatus × Bool :=
  let powerLossPercentage : ℚ := if pS ≤ 0 then 0 else (pS - pR) / pS * 100
  let _voltageLossPercentage : ℚ := if vS ≤ 0 then 0 else (vS - vR) / vS * 100
  if vR < 207 then (ReadingStatus.low_voltage, true)
  else if vR > 253 then (ReadingStatus.high_voltage, true)
  else if powerLossPercentage > 15 then (ReadingStatus.theft_suspected, true)
  else if powerLossPercentage > 5 then (ReadingStatus.loss_detected, true)
  else (ReadingStatus.normal, false)

/-- `ElectricitySimulator._determine_alert_type` (simulator.py lines
222-238): maps a persisted reading to an alert type and severity. -/
def determine_alert_type (r : Reading) : AlertType × AlertSeverity :=
  if r.status = ReadingStatus.theft_suspected ∨ r.power_loss_percentage > 15 then
    (AlertType.theft_suspected, AlertSeverity.critical)
  else if r.status = ReadingStatus.low_voltage then
    (AlertType.voltage_drop, AlertSeverity.warning)
  else if r.status = ReadingStatus.high_voltage then
    (AlertType.equipment_fault, AlertSeverity.warning)
  else if r.status = ReadingStatus.equipment_fault then
    (AlertType.equipment_fault, AlertSeverity.critical)
  else if r.power_loss_percentage > 10 then
    (AlertType.power_loss, AlertSeverity.warning)
  else
    (AlertType.power_loss, AlertSeverity.info)

/-- `_determine_alert_type` with the `status == equipment_fault` branch
deleted; used to state that this branch is unreachable for persisted
readings. -/
def determine_alert_type_no_equipment_branch (r : Reading) : AlertType × AlertSeverity :=
  if r.status = ReadingStatus.theft_suspected ∨ r.power_loss_percentage > 15 then
    (AlertType.theft_suspected, AlertSeverity.critical)
  else if r.status = ReadingStatus.low_voltage then
    (AlertType.voltage_drop, AlertSeverity.warning)
  else if r.status = ReadingStatus.high_voltage then
    (AlertType.equipment_fault, AlertSeverity.warning)
  else if r.power_loss_percentage > 10 then
    (AlertType.power_loss, AlertSeverity.warning)
  else
    (AlertType.power_loss, AlertSeverity.info)

/-- A reading whose stored `voltage_loss_percentage` was supplied directly
as 42 while `voltage_sent` is 0: the claimed "zero if voltageSent ≤ 0"
recomputation does not happen. -/
def reading_c2 : Reading :=
  { voltage_sent := 0
    voltage_received := 230
    voltage_loss := 0
    voltage_loss_percentage := 42
    current_sent := 0
    current_received := 0
    power_sent_kw := 0
    power_received_kw := 0
    power_loss_kw := 0
    power_loss_percentage := 0
    energy_sent_kwh := 0
    energy_received_kwh := 0
    energy_loss_kwh := 0
    power_factor := 95 / 100
    frequency := 50
    line_distance_meters := 100
    status := ReadingStatus.normal
    is_anomaly := false
    reading_timestamp := 0 }

/-- `ElectricitySimulator` scenario labels (the keys of `SCENARIOS`,
simulator.py lines 32-39, in Python dict insertion order). -/
inductive Scenario
  | normal
  | low_voltage
  | high_loss
  | theft
  | equipment_fault
  | line_fault
  deriving DecidableEq, Repr

/-- `ElectricitySimulator.SCENARIOS`: the probability table in its fixed
iteration order. -/
def SCENARIOS : List (Scenario × ℚ) :=
  [(Scenario.normal, 70 / 100),
   (Scenario.low_voltage, 8 / 100),
   (Scenario.high_loss, 10 / 100),
   (Scenario.theft, 5 / 100),
   (Scenario.equipment_fault, 4 / 100),
   (Scenario.line_fault, 3 / 100)]

/-- The accumulation loop inside `_select_scenario` (simulator.py lines
63-71): `cumulative += probability; if rand <= cumulative: return
scenario`, falling through to `normal`. -/
def select_scenario_walk : List (Scenario × ℚ) → ℚ → ℚ → Scenario
  | [], _, _ => Scenario.normal
  | (s, p) :: rest, cumulative, rand =>
      let c := cumulative + p
      if rand ≤ c then s else select_scenario_walk rest c rand

/-- `ElectricitySimulator._select_scenario`, with the `random.random()`
draw passed explicitly. -/
def select_scenario (rand : ℚ) : Scenario :=
  select_scenario_walk SCENARIOS 0 rand

/-- The topology data one simulator tick reads: the endpoint's sanctioned
load `connected_load_kw`, its transformer's nominal secondary
`output_voltage`, and the sibling count `transformer.houses.count()` used
by the distance proxy. -/
structure House where
  connected_load_kw : ℚ
  output_voltage : ℚ
  sibling_count : ℕ
  deriving DecidableEq, Repr

/-- The ambient random draws one call of `_apply_scenario` makes, passed
explicitly; each field stands for the uniform/randint draw at the
corresponding program point. -/
structure Draws where
  loss_pct : ℚ
  theft_voltage : ℚ
  equip_voltage : ℚ
  equip_current : ℚ
  power_factor : ℚ
  frequency : ℚ
  dist_rand : ℚ
  deriving DecidableEq, Repr

/-- The payload dict `_apply_scenario` returns: raw synthesized values
plus the diagnostic scenario label and scenario-implied expected status
(never persisted). -/
structure ReadingData where
  voltage_sent : ℚ
  voltage_received : ℚ
  current_sent : ℚ
  current_received : ℚ
  power_sent_kw : ℚ
  power_received_kw : ℚ
  energy_sent_kwh : ℚ
  energy_received_kwh : ℚ
  power_factor : ℚ
  frequency : ℚ
  line_distance_meters : ℚ
  scenario : Scenario
  expected_status : ReadingStatus
  deriving DecidableEq, Repr

/-- `ElectricitySimulator._apply_scenario` (simulator.py lines 73-153),
with the random draws taken from `d`.  Decimal rounding of the payload
values is omitted (claim-irrelevant). -/
def apply_scenario (scenario : Scenario) (voltage_sent base_current : ℚ)
    (house : House) (d : Draws) : ReadingData :=
  let distance : ℚ := (house.sibling_count : ℚ) * 50 + d.dist_rand
  let distance_loss_factor : ℚ := 1 + distance / 10000
  let vals : ℚ × ℚ × ReadingStatus :=
    match scenario with
    | Scenario.normal =>
        (voltage_sent * (1 - d.loss_pct * (3 / 10)),
         base_current * (1 - d.loss_pct * (1 / 10)),
         ReadingStatus.normal)
    | Scenario.low_voltage =>
        (voltage_sent * (1 - d.loss_pct),
         base_current * (105 / 100),
         ReadingStatus.low_voltage)
    | Scenario.high_loss =>
        (voltage_sent * (1 - d.loss_pct * (4 / 10)),
         base_current * (1 - d.loss_pct * (6 / 10)),
         ReadingStatus.loss_detected)
    | Scenario.theft =>
        (voltage_sent * (1 - d.theft_voltage),
         base_current * (1 - d.loss_pct),
         ReadingStatus.theft_suspected)
    | Scenario.equipment_fault =>
        (voltage_sent * d.equip_voltage,
         base_current * d.equip_current,
         ReadingStatus.equipment_fault)
    | Scenario.line_fault =>
        (voltage_sent * (1 - d.loss_pct * distance_loss_factor * (6 / 10)),
         base_current * (1 - d.loss_pct * distance_loss_factor * (4 / 10)),
         ReadingStatus.loss_detected)
  let voltage_received := vals.1
  let current_received := vals.2.1
  let power_sent := voltage_sent * base_current * d.power_factor / 1000
  let power_received := voltage_received * current_received * d.power_factor / 1000
  { voltage_sent := voltage_sent
    voltage_received := voltage_received
    current_sent := base_current
    current_received := current_received
    power_sent_kw := power_sent
    power_received_kw := power_received
    energy_sent_kwh := power_sent
    energy_received_kwh := power_received
    power_factor := d.power_factor
    frequency := d.frequency
    line_distance_meters := distance
    scenario := scenario
    expected_status := vals.2.2 }

/-- The exceptions the simulation path can raise. -/
inductive SimError
  | zero_division
  | alert_failure
  deriving DecidableEq, Repr

/-- `ElectricitySimulator.generate_reading` (simulator.py lines 44-61),
with the scenario already selected and the draws passed in.  The division
`connected_load_kw * 1000 / voltage_sent` raises `ZeroDivisionError` when
the transformer's output voltage is zero; there is no other guard on the
voltage. -/
def generate_reading (house : House) (scenario : Scenario) (d : Draws) :
    Except SimError ReadingData :=
  let voltage_sent := house.output_voltage
  if voltage_sent = 0 then Except.error SimError.zero_division
  else
    let base_current := house.connected_load_kw * 1000 / voltage_sent
    Except.ok (apply_scenario scenario voltage_sent base_current house d)

/-- `ElectricityReading.objects.create(...)` inside `create_reading`
(simulator.py lines 165-181): only the raw synthesized fields and the
timestamp are passed (the diagnostic `expected_status` is not); every
derived field starts at its model default and the model's `save`
recomputes them. -/
def reading_of_data (rd : ReadingData) (timestamp : ℤ) : Reading :=
  save
    { voltage_sent := rd.voltage_sent
      voltage_received := rd.voltage_received
      voltage_loss := 0
      voltage_loss_percentage := 0
      current_sent := rd.current_sent
      current_received := rd.current_received
      power_sent_kw := rd.power_sent_kw
      power_received_kw := rd.power_received_kw
      power_loss_kw := 0
      power_loss_percentage := 0
      energy_sent_kwh := rd.energy_sent_kwh
      energy_received_kwh := rd.energy_received_kwh
      energy_loss_kwh := 0
      power_factor := rd.power_factor
      frequency := rd.frequency
      line_distance_meters := rd.line_distance_meters
      status := ReadingStatus.normal
      is_anomaly := false
      reading_timestamp := timestamp }

/-- The fields of `LossAlert` the claims are about.  The rendered title
and description strings are abstracted away; a failure while building the
alert is modelled separately as a tick fault in `run_tick`. -/
structure LossAlert where
  alert_type : AlertType
  severity : AlertSeverity
  status : AlertStatus
  voltage_loss : ℚ
  voltage_loss_percentage : ℚ
  power_loss_kw : ℚ
  power_loss_percentage : ℚ
  estimated_financial_loss : ℚ
  deriving DecidableEq, Repr

/-- `self.rate_per_kwh = Decimal('7.50')` (simulator.py lines 41-42). -/
def rate_per_kwh : ℚ := 75 / 10

/-- `ElectricitySimulator._create_alert` (simulator.py lines 187-220):
`estimated_loss = power_loss_kw * 24 * rate_per_kwh * 30`; `status` is
not passed to `LossAlert.objects.create`, so it takes the model default
`active`. -/
def create_alert (reading : Reading) : LossAlert :=
  let ts := determine_alert_type reading
  let power_loss_daily := reading.power_loss_kw * 24
  let estimated_loss := power_loss_daily * rate_per_kwh * 30
  { alert_type := ts.1
    severity := ts.2
    status := AlertStatus.active
    voltage_loss := reading.voltage_loss
    voltage_loss_percentage := reading.voltage_loss_percentage
    power_loss_kw := reading.power_loss_kw
    power_loss_percentage := reading.power_loss_percentage
    estimated_financial_loss := estimated_loss }

/-- `ElectricitySimulator.create_reading` (simulator.py lines 155-185),
viewed as the values it produces: the persisted (classified) reading, and
the alert created exactly when `reading.is_anomaly`. -/
def create_reading (house : House) (scenario : Scenario) (d : Draws)
    (timestamp : ℤ) : Except SimError (Reading × Option LossAlert) :=
  (generate_reading house scenario d).map fun rd =>
    let reading := reading_of_data rd timestamp
    (reading, if reading.is_anomaly then some (create_alert reading) else none)

/-- The persistence layer visible to the claims: the stored readings and
alerts, in insertion order. -/
structure DB where
  readings : List Reading
  alerts : List LossAlert
  deriving DecidableEq, Repr

/-- The body of `create_reading` as it touches the store: insert the
reading, then, when the reading is anomalous, run `_create_alert` and
insert the alert.  `alert_fails` injects a failure (e.g. an exception
while rendering the alert title/description or inserting the row) at the
alert step; `create_reading` itself has no handler around
`_create_alert`, so the exception leaves the function. -/
def create_reading_tx (db : DB) (house : House) (scenario : Scenario) (d : Draws)
    (timestamp : ℤ) (alert_fails : Bool) : Except SimError DB :=
  match create_reading house scenario d timestamp with
  | Except.error e => Except.error e
  | Except.ok pr =>
      let db1 : DB := ⟨db.readings ++ [pr.1], db.alerts⟩
      match pr.2 with
      | none => Except.ok db1
      | some a =>
          if alert_fails then Except.error SimError.alert_failure
          else Except.ok ⟨db1.readings, db1.alerts ++ [a]⟩

/-- `@transaction.atomic` on `create_reading` (simulator.py line 155): an
exception raised anywhere inside the block rolls back every insert of the
block and then propagates; on success both inserts commit. -/
def run_tick (db : DB) (house : House) (scenario : Scenario) (d : Draws)
    (timestamp : ℤ) (alert_fails : Bool) : DB × Option SimError :=
  match create_reading_tx db house scenario d timestamp alert_fails with
  | Except.ok db2 => (db2, none)
  | Except.error e => (db, some e)

/-- The `for house in houses` loop of `simulate_all_houses` (simulator.py
lines 285-303): readings of completed ticks persist; an exception from
`create_reading` propagates (there is no per-tick handler), aborting the
loop and leaving the remaining endpoints unprocessed. -/
def simulate_houses_loop (scen : ℕ → Scenario) (d : ℕ → Draws) (timestamp : ℤ) :
    List House → ℕ → List Reading → List Reading × Option SimError
  | [], _, acc => (acc, none)
  | house :: rest, i, acc =>
      match create_reading house (scen i) (d i) timestamp with
      | Except.ok pr => simulate_houses_loop scen d timestamp rest (i + 1) (acc ++ [pr.1])
      | Except.error e => (acc, some e)

/-- `ElectricitySimulator.simulate_all_houses`, with the eligible-endpoint
filter already resolved to the list `houses` and the per-tick draws passed
explicitly. -/
def simulate_all_houses (houses : List House) (scen : ℕ → Scenario) (d : ℕ → Draws)
    (timestamp : ℤ) : List Reading × Option SimError :=
  simulate_houses_loop scen d timestamp houses 0 []

/-- The inner `for house in houses` loop of `simulate_historical_data`
(simulator.py lines 305-319) at one fixed timestamp; exceptions
propagate. -/
def run_houses_at (scen : ℕ → Scenario) (d : ℕ → Draws) (timestamp : ℤ) :
    List House → ℕ → Except SimError (List Reading)
  | [], _ => Except.ok []
  | house :: rest, i =>
      match create_reading house (scen i) (d i) timestamp with
      | Except.error e => Except.error e
      | Except.ok pr =>
          match run_houses_at scen d timestamp rest (i + 1) with
          | Except.error e => Except.error e
          | Except.ok more => Except.ok (pr.1 :: more)

/-- The outer `for hour in range(hours)` loop of
`simulate_historical_data`, iterating over the listed hour indices:
`timestamp = now - timedelta(hours = hours - hour)`, modelled in seconds
(one hour = 3600). -/
def simulate_historical_rows (hours : ℕ) (now : ℤ) (houses : List House)
    (scen : ℕ → ℕ → Scenario) (d : ℕ → ℕ → Draws) :
    List ℕ → Except SimError (List Reading)
  | [] => Except.ok []
  | hour :: rest =>
      match run_houses_at (scen hour) (d hour)
          (now - ((hours : ℤ) - (hour : ℤ)) * 3600) houses 0 with
      | Except.error e => Except.error e
      | Except.ok row =>
          match simulate_historical_rows hours now houses scen d rest with
          | Except.error e => Except.error e
          | Except.ok more => Except.ok (row ++ more)

/-- `ElectricitySimulator.simulate_historical_data`, with the eligible
endpoints passed as a list and the draws per (hour, endpoint index)
explicit. -/
def simulate_historical_data (hours : ℕ) (houses : List House) (now : ℤ)
    (scen : ℕ → ℕ → Scenario) (d : ℕ → ℕ → Draws) : Except SimError (List Reading) :=
  simulate_historical_rows hours now houses scen d (List.range hours)

/-- A well-configured endpoint: 2.3 kW sanctioned load on a 230 V
transformer feeding 10 houses. -/
def house0 : House := ⟨23 / 10, 230, 10⟩

/-- An endpoint whose transformer reports a zero nominal output voltage. -/
def house_zero : House := ⟨23 / 10, 0, 10⟩

/-- An endpoint whose transformer reports a negative nominal output
voltage. -/
def house_neg : House := ⟨23 / 10, -230, 10⟩

/-- Concrete draws: 12% loss draw, 3% theft voltage drop, unit equipment
factors, power factor 0.90, frequency 50, distance randint 60. -/
def d0 : Draws := ⟨12 / 100, 3 / 100, 1, 1, 9 / 10, 50, 60⟩

/-- The reading a `low_voltage` tick over `house0` with draws `d0`
persists: received voltage 230 × 0.88 = 202.4 V, below the 207 V
threshold. -/
def tick0_r : Reading :=
  reading_of_data
    (apply_scenario Scenario.low_voltage house0.output_voltage
      (house0.connected_load_kw * 1000 / house0.output_voltage) house0 d0) 0

/-- The alert option that tick produces. -/
def tick0_ao : Option LossAlert :=
  if tick0_r.is_anomaly then some (create_alert tick0_r) else none

/- ===== Theorems ===== -/

/- Field-level description of `save`, shared by several claims below. -/

theorem save_voltage_loss (r : Reading) :
    (save r).voltage_loss = r.voltage_sent - r.voltage_received := by
  simp only [save, update_status]
  split_ifs <;> rfl

theorem save_power_loss_kw (r : Reading) :
    (save r).power_loss_kw = r.power_sent_kw - r.power_received_kw := by
  simp only [save, update_status]
  split_ifs <;> rfl

theorem save_energy_loss_kwh (r : Reading) :
    (save r).energy_loss_kwh = r.energy_sent_kwh - r.energy_received_kwh := by
  simp only [save, update_status]
  split_ifs <;> rfl

theorem save_voltage_loss_percentage (r : Reading) :
    (save r).voltage_loss_percentage =
      if 0 < r.voltage_sent then (r.voltage_sent - r.voltage_received) / r.voltage_sent * 100
      else r.voltage_loss_percentage := by
  simp only [save, update_status]
  split_ifs <;> rfl

theorem save_power_loss_percentage (r : Reading) :
    (save r).power_loss_percentage =
      if 0 < r.power_sent_kw then (r.power_sent_kw - r.power_received_kw) / r.power_sent_kw * 100
      else r.power_loss_percentage := by
  simp only [save, update_status]
  split_ifs <;> rfl

theorem save_reading_timestamp (r : Reading) :
    (save r).reading_timestamp = r.reading_timestamp := by
  simp only [save, update_status]
  split_ifs <;> rfl

theorem reading_of_data_timestamp (rd : ReadingData) (ts : ℤ) :
    (reading_of_data rd ts).reading_timestamp = ts := by
  simp [reading_of_data, save_reading_timestamp]

/-- `C1`: the persistence-time classifier realises exactly the spec's
fixed precedence chain: low voltage below 207, high voltage above 253,
theft above 15% power loss, loss above 5%, otherwise normal, with the
anomaly flag true on every branch but the last. -/
theorem c1_classifier_precedence (vS vR pS pR : ℚ) :
    classify vS vR pS pR = classifySpec vS vR pS pR := by
  simp only [classify, classifySpec, save, update_status, blank_reading]
  split_ifs <;> simp_all <;> linarith

/-- `C2` counterexample: on a reading with `voltage_sent = 0` and a
directly supplied `voltage_loss_percentage = 42`, persistence leaves the
percentage at 42 instead of recomputing it to zero as the claim states. -/
theorem c2_counterexample :
    reading_c2.voltage_sent ≤ 0 ∧
    (save reading_c2).voltage_loss_percentage = 42 ∧
    (save reading_c2).voltage_loss_percentage ≠ 0 := by decide

/-- `C2` (amended): at persistence time the absolute loss fields
(`voltageLoss`, `powerLossKw`, `energyLossKwh`) are always recomputed from
the raw sent/received fields; each percentage field is recomputed only
when the corresponding sent value is strictly positive, and otherwise
retains its previously stored (possibly directly supplied) value, which is
0 by model default. -/
theorem c2_derived_fields_recomputed (r : Reading) :
    (save r).voltage_loss = r.voltage_sent - r.voltage_received ∧
    (save r).power_loss_kw = r.power_sent_kw - r.power_received_kw ∧
    (save r).energy_loss_kwh = r.energy_sent_kwh - r.energy_received_kwh ∧
    (save r).voltage_loss_percentage =
      (if 0 < r.voltage_sent then (r.voltage_sent - r.voltage_received) / r.voltage_sent * 100
       else r.voltage_loss_percentage) ∧
    (save r).power_loss_percentage =
      (if 0 < r.power_sent_kw then (r.power_sent_kw - r.power_received_kw) / r.power_sent_kw * 100
       else r.power_loss_percentage) :=
  ⟨save_voltage_loss r, save_power_loss_kw r, save_energy_loss_kwh r,
   save_voltage_loss_percentage r, save_power_loss_percentage r⟩

/-- The classifier only ever produces one of these five statuses. -/
theorem save_status_mem (r : Reading) :
    (save r).status = ReadingStatus.normal ∨
    (save r).status = ReadingStatus.low_voltage ∨
    (save r).status = ReadingStatus.high_voltage ∨
    (save r).status = ReadingStatus.theft_suspected ∨
    (save r).status = ReadingStatus.loss_detected := by
  simp only [save, update_status]
  split_ifs <;> simp

/-- `C9`: persistence-time classification never assigns
`equipment_fault`; consequently the `status == equipment_fault` branch of
`_determine_alert_type` is unreachable for any persisted reading, and the
function agrees with its version with that branch removed. -/
theorem c9_equipment_fault_unreachable (r : Reading) :
    ((save r).status = ReadingStatus.normal ∨
     (save r).status = ReadingStatus.low_voltage ∨
     (save r).status = ReadingStatus.high_voltage ∨
     (save r).status = ReadingStatus.theft_suspected ∨
     (save r).status = ReadingStatus.loss_detected) ∧
    (save r).status ≠ ReadingStatus.equipment_fault ∧
    determine_alert_type (save r) = determine_alert_type_no_equipment_branch (save r) := by
  have hmem := save_status_mem r
  refine ⟨hmem, ?_, ?_⟩
  · rcases hmem with h | h | h | h | h <;> simp [h]
  · unfold determine_alert_type determine_alert_type_no_equipment_branch
    rcases hmem with h | h | h | h | h <;> simp [h]

/-- `C10`: a power gain (received power above sent power) with in-band
voltage is classified `normal` with no anomaly flag. -/
theorem c10_power_gain_normal (vS vR pS pR : ℚ)
    (hp : pS < pR) (h1 : 207 ≤ vR) (h2 : vR ≤ 253) :
    classify vS vR pS pR = (ReadingStatus.normal, false) := by
  simp only [classify, save, update_status, blank_reading]
  split_ifs <;> simp_all <;>
    first
      | linarith
      | (have hx : (pS - pR) / pS < 0 :=
          div_neg_of_neg_of_pos (by linarith) (by assumption)
         linarith)

/-- `C10` witness at a concrete power-gain input. -/
theorem c10_witness : classify 230 230 10 12 = (ReadingStatus.normal, false) :=
  c10_power_gain_normal 230 230 10 12 (by norm_num) (by norm_num) (by norm_num)

/-- `C7`: the scenario table sums to 1, and the walk returns the first
scenario (in the fixed order normal, low_voltage, high_loss, theft,
equipment_fault, line_fault) whose cumulative probability 0.70, 0.78,
0.88, 0.93, 0.97, 1.00 is at least the draw; for a draw in [0, 1) the
result is therefore the interval lookup below (always one of the six
labels, with the trailing normal fallback unreachable in exact
arithmetic). -/
theorem c7_scenario_selection (r : ℚ) (_h0 : 0 ≤ r) (h1 : r < 1) :
    (SCENARIOS.map Prod.snd).sum = 1 ∧
    select_scenario r =
      (if r ≤ 70 / 100 then Scenario.normal
       else if r ≤ 78 / 100 then Scenario.low_voltage
       else if r ≤ 88 / 100 then Scenario.high_loss
       else if r ≤ 93 / 100 then Scenario.theft
       else if r ≤ 97 / 100 then Scenario.equipment_fault
       else Scenario.line_fault) := by
  constructor
  · norm_num [SCENARIOS]
  · simp only [select_scenario, select_scenario_walk, SCENARIOS]
    norm_num
    split_ifs <;> first | rfl | linarith

/-- `C7` witness: the draw 0.75 falls in the second interval. -/
theorem c7_witness : select_scenario (75 / 100) = Scenario.low_voltage := by
  have h := (c7_scenario_selection (75 / 100) (by norm_num) (by norm_num)).2
  rw [h]
  norm_num

/-- `C6`: a successful tick persists a classified reading together with
exactly one alert when the reading is anomalous — that alert carrying the
model-default status `active` — and no alert otherwise. -/
theorem c6_alert_iff_anomaly (house : House) (s : Scenario) (d : Draws) (ts : ℤ)
    (hv : house.output_voltage ≠ 0) :
    ∃ r ao, create_reading house s d ts = Except.ok (r, ao) ∧
      (r.is_anomaly = true →
        ao = some (create_alert r) ∧ (create_alert r).status = AlertStatus.active) ∧
      (r.is_anomaly = false → ao = none) := by
  obtain ⟨rd, hrd⟩ : ∃ rd, generate_reading house s d = Except.ok rd :=
    ⟨apply_scenario s house.output_voltage
      (house.connected_load_kw * 1000 / house.output_voltage) house d,
     by simp [generate_reading, hv]⟩
  have hcr : create_reading house s d ts = Except.ok (reading_of_data rd ts,
      if (reading_of_data rd ts).is_anomaly then some (create_alert (reading_of_data rd ts))
      else none) := by
    simp [create_reading, hrd, Except.map]
  refine ⟨_, _, hcr, ?_, ?_⟩
  · intro han
    refine ⟨?_, ?_⟩
    · rw [if_pos han]
    · simp [create_alert]
  · intro han
    rw [if_neg]
    simp [han]

/-- `C6` witness: a concrete low-voltage tick over a healthy endpoint. -/
theorem c6_witness :
    ∃ r ao, create_reading house0 Scenario.low_voltage d0 0 = Except.ok (r, ao) ∧
      (r.is_anomaly = true →
        ao = some (create_alert r) ∧ (create_alert r).status = AlertStatus.active) ∧
      (r.is_anomaly = false → ao = none) :=
  c6_alert_iff_anomaly house0 Scenario.low_voltage d0 0 (by norm_num [house0])

/-- `C8`: every alert carries an estimated financial loss of the
reading's power loss (kW) × 24 hours/day × 7.50 per kWh × 30 days/month. -/
theorem c8_estimated_financial_loss (r : Reading) :
    (create_alert r).estimated_financial_loss = r.power_loss_kw * 24 * (75 / 10) * 30 := by
  simp [create_alert, rate_per_kwh]

/-- `C3` counterexample: for a concrete anomalous tick whose alert
creation fails, the tick leaves the store unchanged — the reading does
not exist afterwards (conjunct 2), although the reading was anomalous
(conjunct 1) and a failure-free run of the same tick would have persisted
it (conjunct 3). -/
theorem c3_counterexample :
    tick0_r.is_anomaly = true ∧
    (run_tick ⟨[], []⟩ house0 Scenario.low_voltage d0 0 true).1.readings = [] ∧
    (run_tick ⟨[], []⟩ house0 Scenario.low_voltage d0 0 false).1.readings = [tick0_r] := by
  have han : tick0_r.is_anomaly = true := by
    simp [tick0_r, reading_of_data, apply_scenario, save, update_status, house0, d0]
    norm_num
  have hcr : create_reading house0 Scenario.low_voltage d0 0 = Except.ok (tick0_r, tick0_ao) := by
    simp [create_reading, generate_reading, Except.map, tick0_r, tick0_ao, house0, d0]
  have hao : tick0_ao = some (create_alert tick0_r) := by
    rw [tick0_ao, if_pos han]
  refine ⟨han, ?_, ?_⟩
  · simp [run_tick, create_reading_tx, hcr, hao]
  · simp [run_tick, create_reading_tx, hcr, hao]

/-- `C3` (amended): when the alert step of a tick fails for an anomalous
reading, the transaction wrapping the tick rolls back both inserts: the
store is exactly as before the tick (so the reading does not survive) and
the error propagates to the caller. -/
theorem c3_alert_failure_rolls_back_reading (db : DB) (house : House) (s : Scenario)
    (d : Draws) (ts : ℤ) (r : Reading) (ao : Option LossAlert)
    (heq : create_reading house s d ts = Except.ok (r, ao))
    (han : r.is_anomaly = true) :
    run_tick db house s d ts true = (db, some SimError.alert_failure) := by
  have hao : ao = some (create_alert r) := by
    rcases hgen : generate_reading house s d with e | rd
    · simp [create_reading, hgen, Except.map] at heq
    · simp [create_reading, hgen, Except.map] at heq
      obtain ⟨hr, hao⟩ := heq
      subst hr
      rw [← hao, if_pos han]
  simp [run_tick, create_reading_tx, heq, hao]

/-- `C3` witness for the amended claim, at the concrete anomalous tick. -/
theorem c3_amended_witness :
    run_tick ⟨[], []⟩ house0 Scenario.low_voltage d0 0 true =
      (⟨[], []⟩, some SimError.alert_failure) :=
  c3_alert_failure_rolls_back_reading ⟨[], []⟩ house0 Scenario.low_voltage d0 0
    tick0_r tick0_ao
    (by simp [create_reading, generate_reading, Except.map, tick0_r, tick0_ao, house0, d0])
    (by simp [tick0_r, reading_of_data, apply_scenario, save, update_status, house0, d0]
        norm_num)

/-- `C4`: evaluation of the code at the claim's failing input.  With a
zero-output-voltage transformer first in the batch, the tick raises
(`ZeroDivisionError` from the `connected_load_kw * 1000 / voltage_sent`
division) instead of being rejected as a configuration error, the
exception aborts the whole batch, and the remaining healthy endpoint gets
no reading (conjuncts 1-2).  A negative output voltage is not excluded
either: synthesis succeeds and produces a (physically bogus) payload
(conjunct 3). -/
theorem c4_zero_voltage_crashes_batch :
    (simulate_all_houses [house_zero, house0] (fun _ => Scenario.normal) (fun _ => d0) 0).1 = [] ∧
    (simulate_all_houses [house_zero, house0] (fun _ => Scenario.normal) (fun _ => d0) 0).2 =
      some SimError.zero_division ∧
    (∃ rd, generate_reading house_neg Scenario.normal d0 = Except.ok rd) := by
  refine ⟨?_, ?_, ?_⟩
  · simp [simulate_all_houses, simulate_houses_loop, create_reading, generate_reading,
      Except.map, house_zero]
  · simp [simulate_all_houses, simulate_houses_loop, create_reading, generate_reading,
      Except.map, house_zero]
  · refine ⟨apply_scenario Scenario.normal house_neg.output_voltage
      (house_neg.connected_load_kw * 1000 / house_neg.output_voltage) house_neg d0, ?_⟩
    norm_num [generate_reading, house_neg]

/-- On a healthy endpoint a tick always succeeds, returning the persisted
reading and its alert option. -/
theorem create_reading_ok (house : House) (s : Scenario) (d : Draws) (ts : ℤ)
    (hv : house.output_voltage ≠ 0) :
    create_reading house s d ts = Except.ok
      (reading_of_data (apply_scenario s house.output_voltage
        (house.connected_load_kw * 1000 / house.output_voltage) house d) ts,
       if (reading_of_data (apply_scenario s house.output_voltage
          (house.connected_load_kw * 1000 / house.output_voltage) house d) ts).is_anomaly
       then some (create_alert (reading_of_data (apply_scenario s house.output_voltage
          (house.connected_load_kw * 1000 / house.output_voltage) house d) ts))
       else none) := by
  simp [create_reading, generate_reading, hv, Except.map]

/-- One inner backfill loop over healthy endpoints: one reading per
endpoint, all carrying the loop's timestamp. -/
theorem run_houses_at_ok (scen : ℕ → Scenario) (d : ℕ → Draws) (ts : ℤ) :
    ∀ (houses : List House), (∀ h ∈ houses, h.output_voltage ≠ 0) → ∀ (i : ℕ),
    ∃ row, run_houses_at scen d ts houses i = Except.ok row ∧
      row.length = houses.length ∧ ∀ r ∈ row, r.reading_timestamp = ts := by
  intro houses
  induction houses with
  | nil =>
      intro _ i
      exact ⟨[], rfl, rfl, by simp⟩
  | cons house rest ih =>
      intro hv i
      obtain ⟨row, hrow, hlen, hts⟩ := ih (fun h hh => hv h (List.mem_cons_of_mem _ hh)) (i + 1)
      have hv0 : house.output_voltage ≠ 0 := hv house (List.mem_cons_self _ _)
      have hcr := create_reading_ok house (scen i) (d i) ts hv0
      refine ⟨reading_of_data (apply_scenario (scen i) house.output_voltage
          (house.connected_load_kw * 1000 / house.output_voltage) house (d i)) ts :: row,
        ?_, ?_, ?_⟩
      · simp [run_houses_at, hcr, hrow]
      · simp [hlen]
      · intro r hr
        rcases List.mem_cons.mp hr with h | h
        · rw [h]
          exact reading_of_data_timestamp _ _
        · exact hts r h

/-- The outer backfill loop over a list of hour indices; readings appear
hour-major, endpoint-minor, with the timestamp determined by the hour. -/
theorem simulate_historical_rows_ok (hours : ℕ) (now : ℤ) (houses : List House)
    (scen : ℕ → ℕ → Scenario) (d : ℕ → ℕ → Draws)
    (hv : ∀ h ∈ houses, h.output_voltage ≠ 0) :
    ∀ (hs : List ℕ),
    ∃ rs, simulate_historical_rows hours now houses scen d hs = Except.ok rs ∧
      rs.length = hs.length * houses.length ∧
      ∀ j i (hj : j < hs.length), i < houses.length →
        ∃ r, rs[j * houses.length + i]? = some r ∧
          r.reading_timestamp = now - ((hours : ℤ) - ((hs.get ⟨j, hj⟩ : ℕ) : ℤ)) * 3600 := by
  intro hs
  induction hs with
  | nil =>
      refine ⟨[], rfl, by simp, ?_⟩
      intro j i hj
      exact absurd hj (by simp)
  | cons hour rest ih =>
      obtain ⟨rs, hrs, hlen, hidx⟩ := ih
      obtain ⟨row, hrow, hrlen, hrts⟩ :=
        run_houses_at_ok (scen hour) (d hour)
          (now - ((hours : ℤ) - (hour : ℤ)) * 3600) houses hv 0
      refine ⟨row ++ rs, ?_, ?_, ?_⟩
      · simp [simulate_historical_rows, hrow, hrs]
      · simp [hlen, hrlen, Nat.succ_mul, Nat.add_comm]
      · intro j i hj hi
        cases j with
        | zero =>
            have hgot : ∃ r, row[i]? = some r :=
              ⟨row.get ⟨i, by rw [hrlen]; exact hi⟩,
               List.getElem?_eq_getElem (by rw [hrlen]; exact hi)⟩
            obtain ⟨r, hr⟩ := hgot
            have hmem : r ∈ row := List.getElem?_mem hr
            refine ⟨r, ?_, ?_⟩
            · rw [Nat.zero_mul, Nat.zero_add, List.getElem?_append,
                if_pos (by rw [hrlen]; exact hi)]
              exact hr
            · simpa using hrts r hmem
        | succ j' =>
            have hge : row.length ≤ (j' + 1) * houses.length + i := by
              rw [hrlen, Nat.succ_mul]
              calc houses.length ≤ j' * houses.length + houses.length :=
                    Nat.le_add_left _ _
                _ ≤ j' * houses.length + houses.length + i := Nat.le_add_right _ _
            have harith : (j' + 1) * houses.length + i - row.length =
                j' * houses.length + i := by
              rw [hrlen, Nat.succ_mul]
              omega
            have hj' : j' < rest.length := by simpa using hj
            obtain ⟨r, hr, hts⟩ := hidx j' i hj' hi
            refine ⟨r, ?_, ?_⟩
            · rw [List.getElem?_append_right hge, harith]
              exact hr
            · simpa using hts

/-- `C5`: over healthy endpoints, historical backfill with hour count
`hours` succeeds and produces exactly `hours × |endpoints|` readings; the
reading of endpoint `i` at iteration hour `hu` sits at position
`hu × |endpoints| + i` and carries timestamp `now − (hours − hu)` hours
(3600-second hours), so each endpoint's timestamps are strictly
increasing and hour-spaced across hours. -/
theorem c5_backfill (hours : ℕ) (houses : List House) (now : ℤ)
    (scen : ℕ → ℕ → Scenario) (d : ℕ → ℕ → Draws)
    (hv : ∀ h ∈ houses, h.output_voltage ≠ 0) :
    ∃ rs, simulate_historical_data hours houses now scen d = Except.ok rs ∧
      rs.length = hours * houses.length ∧
      (∀ hu i, hu < hours → i < houses.length →
        ∃ r, rs[hu * houses.length + i]? = some r ∧
          r.reading_timestamp = now - ((hours : ℤ) - (hu : ℤ)) * 3600) ∧
      (∀ hu1 hu2 i, hu1 < hu2 → hu2 < hours → i < houses.length →
        ∃ r1 r2, rs[hu1 * houses.length + i]? = some r1 ∧
          rs[hu2 * houses.length + i]? = some r2 ∧
          r1.reading_timestamp < r2.reading_timestamp ∧
          (hu2 = hu1 + 1 → r2.reading_timestamp = r1.reading_timestamp + 3600)) := by
  obtain ⟨rs, hrs, hlen, hidx⟩ :=
    simulate_historical_rows_ok hours now houses scen d hv (List.range hours)
  have hrange : (List.range hours).length = hours := List.length_range hours
  have hts_at : ∀ hu i (hhu : hu < hours), i < houses.length →
      ∃ r, rs[hu * houses.length + i]? = some r ∧
        r.reading_timestamp = now - ((hours : ℤ) - (hu : ℤ)) * 3600 := by
    intro hu i hhu hi
    have hj : hu < (List.range hours).length := by rwa [hrange]
    obtain ⟨r, hr, hts⟩ := hidx hu i hj hi
    refine ⟨r, hr, ?_⟩
    simpa [List.get_eq_getElem, List.getElem_range] using hts
  refine ⟨rs, hrs, by rw [hlen, hrange], hts_at, ?_⟩
  intro hu1 hu2 i h12 hhu2 hi
  obtain ⟨r1, hr1, hts1⟩ := hts_at hu1 i (by omega) hi
  obtain ⟨r2, hr2, hts2⟩ := hts_at hu2 i hhu2 hi
  have hcast : (hu1 : ℤ) < (hu2 : ℤ) := by exact_mod_cast h12
  refine ⟨r1, r2, hr1, hr2, ?_, ?_⟩
  · rw [hts1, hts2]
    linarith
  · intro h21
    subst h21
    rw [hts1, hts2]
    push_cast
    ring

/-- `C5` witness: two hours over one healthy endpoint. -/
theorem c5_witness :
    ∃ rs, simulate_historical_data 2 [house0] 0
        (fun _ _ => Scenario.normal) (fun _ _ => d0) = Except.ok rs ∧
      rs.length = 2 * [house0].length ∧
      (∀ hu i, hu < 2 → i < [house0].length →
        ∃ r, rs[hu * [house0].length + i]? = some r ∧
          r.reading_timestamp = 0 - ((2 : ℤ) - (hu : ℤ)) * 3600) ∧
      (∀ hu1 hu2 i, hu1 < hu2 → hu2 < 2 → i < [house0].length →
        ∃ r1 r2, rs[hu1 * [house0].length + i]? = some r1 ∧
          rs[hu2 * [house0].length + i]? = some r2 ∧
          r1.reading_timestamp < r2.reading_timestamp ∧
          (hu2 = hu1 + 1 → r2.reading_timestamp = r1.reading_timestamp + 3600)) :=
  c5_backfill 2 [house0] 0 (fun _ _ => Scenario.normal) (fun _ _ => d0)
    (by
      intro h hh
      simp only [List.mem_singleton] at hh
      subst hh
      norm_num [house0])

end GramMeter
